import Mathlib

/-!
# Creating_A_Window/main.cpp

A shallow embedding of `main`, `framebuffer_size_callback` and `processInput`.
The program is a sequence of calls into GLFW, GLAD and OpenGL.  Every call is
recorded, with the value it returned to the program, in a call trace; the
answers of the outside world (the window handle, the loader result, the three
status results, the logs, and per frame the key state, the buffer name and the
events delivered while polling) are read from an explicit environment.
-/

namespace CreatingAWindow

/-! ## Header constants (GLFW/glfw3.h, glad/glad.h) -/

def GLFW_CONTEXT_VERSION_MAJOR : Nat := 0x00022002
def GLFW_CONTEXT_VERSION_MINOR : Nat := 0x00022003
def GLFW_OPENGL_PROFILE : Nat := 0x00022008
def GLFW_OPENGL_CORE_PROFILE : Int := 0x00032001
def GLFW_KEY_E : Nat := 69
def GLFW_PRESS : Int := 1
def GL_VERTEX_SHADER : Nat := 0x8B31
def GL_FRAGMENT_SHADER : Nat := 0x8B30
def GL_COMPILE_STATUS : Nat := 0x8B81
def GL_LINK_STATUS : Nat := 0x8B82
def GL_COLOR_BUFFER_BIT : Nat := 0x4000
def GL_ARRAY_BUFFER : Nat := 0x8892
def GL_STATIC_DRAW : Nat := 0x88E4
def GL_NO_ERROR : Nat := 0
def GL_INVALID_VALUE : Nat := 0x0501

/-- The null pointer. -/
def NULL : Nat := 0

/-! ## Settings and literals of the source -/

def SCR_WIDTH : Nat := 800
def SCR_HEIGHT : Nat := 600

def vertexShaderSource : String :=
  "#version 330 core\nlayout (location = 0) in vec3 aPos;\nvoid main()\n\x7b\n\tgl_Position = vec4(aPos.x, aPos.y, aPos.z, 1.0);\n\x7d"

def fragmentShaderSource : String :=
  "#version 330 core\nout vec4 FragColor;\nvoid main()\n\x7b\n\tFragColor = vec4(1.0, 0.5f, 0.2f, 1.0f);\n\x7d\n"

/-- A float literal of the source, kept as the decimal it is written as:
`mantissa / 10 ^ digits` (`0.2f` is `⟨2, 1⟩`, `-0.5f` is `⟨-5, 1⟩`). -/
structure FloatLit where
  mantissa : Int
  digits : Nat
  deriving DecidableEq, Repr

/-- The array `vertices` of `main`: four corners, three components each. -/
def vertices : List FloatLit :=
  [⟨5, 1⟩, ⟨5, 1⟩, ⟨0, 1⟩,
   ⟨5, 1⟩, ⟨-5, 1⟩, ⟨0, 1⟩,
   ⟨-5, 1⟩, ⟨-5, 1⟩, ⟨0, 1⟩,
   ⟨-5, 1⟩, ⟨5, 1⟩, ⟨0, 1⟩]

/-- The value of `sizeof (float)`. -/
def sizeofFloat : Nat := 4

/-- The value of `sizeof (vertices)`. -/
def sizeofVertices : Nat := vertices.length * sizeofFloat

/-- A call into GLFW, GLAD or OpenGL with its arguments and, where the program
reads one, the value handed back (`result`, `handle`, `value`).  The
constructors `glUseProgram`, `glDeleteProgram`, `glDeleteBuffers`,
`glDrawArrays` and `glDrawElements` are calls of the API that `main` could
issue; they are there so that their absence from a trace is a statement about
the program. -/
inductive Call where
  | glfwInit
  | glfwWindowHint (hint : Nat) (value : Int)
  | glfwCreateWindow (width height : Nat) (title : String) (monitor share : Nat) (result : Nat)
  | glfwTerminate
  | glfwMakeContextCurrent (window : Nat)
  | glfwSetFramebufferSizeCallback (window : Nat)
  | gladLoadGLLoader (result : Int)
  | glCreateShader (type : Nat) (handle : Nat)
  | glShaderSource (shader : Nat) (count : Nat) (source : String)
  | glCompileShader (shader : Nat)
  | glGetShaderiv (shader : Nat) (pname : Nat) (value : Int)
  | glGetShaderInfoLog (shader : Nat) (maxLength : Nat)
  | glCreateProgram (handle : Nat)
  | glAttachShader (program shader : Nat)
  | glLinkProgram (program : Nat)
  | glGetProgramiv (program : Nat) (pname : Nat) (value : Int)
  | glGetProgramInfoLog (program : Nat) (maxLength : Nat)
  | glDeleteShader (shader : Nat)
  | glViewport (x y width height : Int)
  | glfwWindowShouldClose (window : Nat) (result : Bool)
  | glfwGetKey (window : Nat) (key : Nat) (result : Int)
  | glfwSetWindowShouldClose (window : Nat) (value : Bool)
  | glClearColor (red green blue alpha : FloatLit)
  | glClear (mask : Nat)
  | glGenBuffers (n : Nat) (handle : Nat)
  | glBindBuffer (target : Nat) (buffer : Nat)
  | glBufferData (target : Nat) (size : Nat) (data : List FloatLit) (usage : Nat)
  | glfwSwapBuffers (window : Nat)
  | glfwPollEvents
  | glUseProgram (program : Nat)
  | glDeleteProgram (program : Nat)
  | glDeleteBuffers (n : Nat) (buffer : Nat)
  | glDrawArrays (mode : Nat) (first count : Nat)
  | glDrawElements (mode : Nat) (count : Nat)
  deriving DecidableEq, Repr

/-- The viewport rectangle of the graphics context. -/
structure Viewport where
  x : Int
  y : Int
  width : Int
  height : Int
  deriving DecidableEq, Repr

/-- What the program can observe or change outside its own variables. -/
structure World where
  /-- the calls issued so far, oldest first -/
  trace : List Call
  /-- standard output: the text of each executed output statement, oldest first -/
  stdout : List String
  /-- the close flag of the window -/
  shouldClose : Bool
  /-- whether a framebuffer-size callback is registered on the window -/
  framebufferSizeCallback : Bool
  /-- the viewport of the graphics context -/
  viewport : Viewport
  /-- the error flag of the graphics context -/
  glError : Nat
  deriving DecidableEq, Repr

/-- The world at program start. -/
def World.init : World :=
  { trace := [], stdout := [], shouldClose := false, framebufferSizeCallback := false,
    viewport := ⟨0, 0, 0, 0⟩, glError := GL_NO_ERROR }

/-- An event handed to the program while it polls. -/
inductive Event where
  /-- the framebuffer of the window was resized -/
  | framebufferSize (width height : Int)
  /-- the user asked the window system to close the window -/
  | windowClose
  /-- any event no handler is registered for -/
  | other
  deriving DecidableEq, Repr

/-- The answers of the outside world during one render-loop iteration. -/
structure Frame where
  /-- what `glfwGetKey (window, GLFW_KEY_E)` returns -/
  key : Int
  /-- the buffer name `glGenBuffers` writes to `VBO` -/
  vbo : Nat
  /-- the events delivered inside `glfwPollEvents` -/
  events : List Event
  deriving DecidableEq, Repr

/-- The answers of the outside world during one run. -/
structure Env where
  /-- the pointer `glfwCreateWindow` returns (`NULL` on failure) -/
  window : Nat
  /-- the `int` that `gladLoadGLLoader` returns -/
  glad : Int
  /-- the names returned by `glCreateShader` and `glCreateProgram` -/
  vertexShader : Nat
  fragmentShader : Nat
  shaderProgram : Nat
  /-- the values written to `success` by the three status queries -/
  vertexStatus : Int
  fragmentStatus : Int
  linkStatus : Int
  /-- the information logs held by the driver -/
  vertexLog : String
  fragmentLog : String
  linkLog : String
  /-- the frames the world plays, in order -/
  frames : List Frame
  deriving DecidableEq, Repr

/-! ## The library, as far as the program observes it -/

/-- Record a call. -/
def World.call (w : World) (c : Call) : World :=
  { w with trace := w.trace ++ [c] }

/-- One output statement `std::cout << ... << std::endl` writing `text` and a newline. -/
def World.print (w : World) (text : String) : World :=
  { w with stdout := w.stdout ++ [text ++ "\n"] }

/-- The function `glViewport`: a negative width or height raises
`GL_INVALID_VALUE` (recorded when no error is pending) and leaves the viewport
as it was. -/
def glViewport (x y width height : Int) (w : World) : World :=
  let w := w.call (.glViewport x y width height)
  if width < 0 ∨ height < 0 then
    { w with glError := if w.glError = GL_NO_ERROR then GL_INVALID_VALUE else w.glError }
  else
    { w with viewport := ⟨x, y, width, height⟩ }

/-- The log functions `glGetShaderInfoLog` / `glGetProgramInfoLog` write at
most `maxLength` bytes, the terminating zero included: the text left in the
buffer. -/
def infoLogText (maxLength : Nat) (log : String) : String :=
  ⟨log.data.take (maxLength - 1)⟩

/-- The function `glfwWindowShouldClose` reads the close flag. -/
def glfwWindowShouldClose (window : Nat) (w : World) : Bool × World :=
  (w.shouldClose, w.call (.glfwWindowShouldClose window w.shouldClose))

/-- The function `glfwSetWindowShouldClose` writes the close flag. -/
def glfwSetWindowShouldClose (window : Nat) (value : Bool) (w : World) : World :=
  { w.call (.glfwSetWindowShouldClose window value) with shouldClose := value }

/-- The function `glfwSetFramebufferSizeCallback` registers the callback. -/
def glfwSetFramebufferSizeCallback (window : Nat) (w : World) : World :=
  { w.call (.glfwSetFramebufferSizeCallback window) with framebufferSizeCallback := true }

/-! ## The program -/

/-- Source lines 149-152. -/
def framebuffer_size_callback (_window : Nat) (width height : Int) (w : World) : World :=
  glViewport 0 0 width height w

/-- Source lines 154-158; `key` is what `glfwGetKey` returns. -/
def processInput (window : Nat) (key : Int) (w : World) : World :=
  let w := w.call (.glfwGetKey window GLFW_KEY_E key)
  if key = GLFW_PRESS then glfwSetWindowShouldClose window true w else w

/-- Delivery of one event: a resize goes to the registered callback, a close
request of the window system sets the close flag. -/
def deliver (window : Nat) (e : Event) (w : World) : World :=
  match e with
  | .framebufferSize width height =>
      if w.framebufferSizeCallback then framebuffer_size_callback window width height w else w
  | .windowClose => { w with shouldClose := true }
  | .other => w

/-- The function `glfwPollEvents`: the pending events are delivered in order. -/
def glfwPollEvents (window : Nat) (events : List Event) (w : World) : World :=
  events.foldl (fun w e => deliver window e w) (w.call .glfwPollEvents)

/-- The body of the render loop, source lines 123-138. -/
def iteration (window : Nat) (f : Frame) (w : World) : World :=
  let w := processInput window f.key w
  let w := w.call (.glClearColor ⟨2, 1⟩ ⟨3, 1⟩ ⟨3, 1⟩ ⟨10, 1⟩)
  let w := w.call (.glClear GL_COLOR_BUFFER_BIT)
  let w := w.call (.glGenBuffers 1 f.vbo)
  let w := w.call (.glBindBuffer GL_ARRAY_BUFFER f.vbo)
  let w := w.call (.glBufferData GL_ARRAY_BUFFER sizeofVertices vertices GL_STATIC_DRAW)
  let w := w.call (.glfwSwapBuffers window)
  glfwPollEvents window f.events w

/-- The render loop, source lines 121-139.  The result is the world after the
last call and whether the loop was left; it is not left when the frames of the
environment end with the window still open (the run goes on). -/
def renderLoop (window : Nat) : List Frame → World → World × Bool
  | [], w =>
      let (closed, w) := glfwWindowShouldClose window w
      (w, closed)
  | f :: rest, w =>
      let (closed, w) := glfwWindowShouldClose window w
      if closed then (w, true) else renderLoop window rest (iteration window f w)

/-- The shader build, source lines 61-104. -/
def buildShaders (env : Env) (w : World) : World :=
  -- VERTEX SHADER
  let vertexShader := env.vertexShader
  let w := w.call (.glCreateShader GL_VERTEX_SHADER vertexShader)
  let w := w.call (.glShaderSource vertexShader 1 vertexShaderSource)
  let w := w.call (.glCompileShader vertexShader)
  let success := env.vertexStatus
  let w := w.call (.glGetShaderiv vertexShader GL_COMPILE_STATUS success)
  let w :=
    if success = 0 then
      let w := w.call (.glGetShaderInfoLog vertexShader 512)
      w.print ("ERROR::SHADER::VERTEX::COMPILATION_FAILED\n" ++ infoLogText 512 env.vertexLog)
    else w
  -- FRAGMENT SHADER
  let fragmentShader := env.fragmentShader
  let w := w.call (.glCreateShader GL_FRAGMENT_SHADER fragmentShader)
  let w := w.call (.glShaderSource fragmentShader 1 fragmentShaderSource)
  let w := w.call (.glCompileShader fragmentShader)
  let success := env.fragmentStatus
  let w := w.call (.glGetShaderiv fragmentShader GL_COMPILE_STATUS success)
  let w :=
    if success = 0 then
      let w := w.call (.glGetShaderInfoLog fragmentShader 512)
      w.print ("ERROR::SHADER::FRAGMENT::COMPILATION_FAILED\n" ++ infoLogText 512 env.fragmentLog)
    else w
  -- LINK SHADERS
  let shaderProgram := env.shaderProgram
  let w := w.call (.glCreateProgram shaderProgram)
  let w := w.call (.glAttachShader shaderProgram vertexShader)
  let w := w.call (.glAttachShader shaderProgram fragmentShader)
  let w := w.call (.glLinkProgram shaderProgram)
  let success := env.linkStatus
  let w := w.call (.glGetProgramiv shaderProgram GL_LINK_STATUS success)
  let w :=
    if success = 0 then
      let w := w.call (.glGetProgramInfoLog shaderProgram 512)
      w.print ("ERROR::SHADER::LINKING::FAILED\n" ++ infoLogText 512 env.linkLog)
    else w
  let w := w.call (.glDeleteShader vertexShader)
  w.call (.glDeleteShader fragmentShader)

/-- The world when `main` stands at the first check of the render loop (after
source line 118), for a run in which the window was created and the driver
bound; the window is created with its close flag clear. -/
def beforeLoop (env : Env) : World :=
  let w := World.init
  let w := w.call .glfwInit
  let w := w.call (.glfwWindowHint GLFW_CONTEXT_VERSION_MAJOR 3)
  let w := w.call (.glfwWindowHint GLFW_CONTEXT_VERSION_MINOR 3)
  let w := w.call (.glfwWindowHint GLFW_OPENGL_PROFILE GLFW_OPENGL_CORE_PROFILE)
  let w := w.call (.glfwCreateWindow 800 600 "LearnOpenGL" NULL NULL env.window)
  let w := w.call (.glfwMakeContextCurrent env.window)
  let w := glfwSetFramebufferSizeCallback env.window w
  let w := w.call (.gladLoadGLLoader env.glad)
  let w := buildShaders env w
  glViewport 0 0 800 600 w

/-- The function `main`, source lines 28-145: the world after the last call and
the value returned (`none` while the run is still in the render loop when the
frames of the environment end). -/
def main (env : Env) : World × Option Int :=
  let w := World.init
  let w := w.call .glfwInit
  let w := w.call (.glfwWindowHint GLFW_CONTEXT_VERSION_MAJOR 3)
  let w := w.call (.glfwWindowHint GLFW_CONTEXT_VERSION_MINOR 3)
  let w := w.call (.glfwWindowHint GLFW_OPENGL_PROFILE GLFW_OPENGL_CORE_PROFILE)
  let window := env.window
  let w := w.call (.glfwCreateWindow 800 600 "LearnOpenGL" NULL NULL window)
  if window = NULL then
    let w := w.print "Failed to create GLFW window"
    let w := w.call .glfwTerminate
    (w, some (-1))
  else
    let w := w.call (.glfwMakeContextCurrent window)
    let w := glfwSetFramebufferSizeCallback window w
    let glad := env.glad
    let w := w.call (.gladLoadGLLoader glad)
    if glad = 0 then
      let w := w.print "Failed to initialize GLAD"
      (w, some (-1))
    else
      let w := buildShaders env w
      let w := glViewport 0 0 800 600 w
      let (w, left) := renderLoop window env.frames w
      if left then
        let w := w.call .glfwTerminate
        (w, some 0)
      else
        (w, none)

/-! ## Vocabulary for statements about traces -/

/-- A call of the graphics API (`gl*`), as opposed to GLFW (`glfw*`) and GLAD. -/
def Call.isGl : Call → Bool
  | .glCreateShader .. | .glShaderSource .. | .glCompileShader .. | .glGetShaderiv ..
  | .glGetShaderInfoLog .. | .glCreateProgram .. | .glAttachShader .. | .glLinkProgram ..
  | .glGetProgramiv .. | .glGetProgramInfoLog .. | .glDeleteShader .. | .glViewport ..
  | .glClearColor .. | .glClear .. | .glGenBuffers .. | .glBindBuffer .. | .glBufferData ..
  | .glUseProgram .. | .glDeleteProgram .. | .glDeleteBuffers .. | .glDrawArrays ..
  | .glDrawElements .. => true
  | _ => false

/-- A call that creates a shader, program or buffer object. -/
def Call.createsObject : Call → Bool
  | .glCreateShader .. | .glCreateProgram .. | .glGenBuffers .. => true
  | _ => false

/-- A check of the render-loop condition. -/
def Call.isLoopCheck : Call → Bool
  | .glfwWindowShouldClose .. => true
  | _ => false

/-- The values the checks of the render-loop condition observed, in order. -/
def loopChecks (t : List Call) : List Bool :=
  t.filterMap fun c => match c with
    | .glfwWindowShouldClose _ r => some r
    | _ => none

/-- Rendering work of the loop body: clear colour, clear, buffer allocation,
binding and upload, buffer swap. -/
def Call.isRendering : Call → Bool
  | .glClearColor .. | .glClear .. | .glGenBuffers .. | .glBindBuffer .. | .glBufferData ..
  | .glfwSwapBuffers .. => true
  | _ => false

/-- A draw call. -/
def Call.isDraw : Call → Bool
  | .glDrawArrays .. | .glDrawElements .. => true
  | _ => false

/-- A call that releases a shader object. -/
def Call.isDeleteShader : Call → Bool
  | .glDeleteShader .. => true
  | _ => false

/-- A call whose first argument is a program object. -/
def Call.takesProgram : Call → Bool
  | .glAttachShader .. | .glLinkProgram .. | .glGetProgramiv .. | .glGetProgramInfoLog ..
  | .glUseProgram .. | .glDeleteProgram .. => true
  | _ => false

/-- How many buffer names the calls of a trace generated. -/
def buffersGenerated (t : List Call) : Nat :=
  (t.map fun c => match c with
    | .glGenBuffers n _ => n
    | _ => 0).sum

/-- How many buffer names the calls of a trace released. -/
def buffersFreed (t : List Call) : Nat :=
  (t.map fun c => match c with
    | .glDeleteBuffers n _ => n
    | _ => 0).sum

/-- The `glViewport` calls the registered resize callback issues for the
resize events among `events`. -/
def callbackCalls (events : List Event) : List Call :=
  events.filterMap fun e => match e with
    | .framebufferSize width height => some (.glViewport 0 0 width height)
    | _ => none

/-- The calls of one executed iteration of the render loop, the callback
registered: the body of the loop read off the source, as a list. -/
def iterationCalls (window : Nat) (f : Frame) : List Call :=
  [.glfwGetKey window GLFW_KEY_E f.key]
    ++ (if f.key = GLFW_PRESS then [.glfwSetWindowShouldClose window true] else [])
    ++ [.glClearColor ⟨2, 1⟩ ⟨3, 1⟩ ⟨3, 1⟩ ⟨10, 1⟩,
        .glClear GL_COLOR_BUFFER_BIT,
        .glGenBuffers 1 f.vbo,
        .glBindBuffer GL_ARRAY_BUFFER f.vbo,
        .glBufferData GL_ARRAY_BUFFER sizeofVertices vertices GL_STATIC_DRAW,
        .glfwSwapBuffers window,
        .glfwPollEvents]
    ++ callbackCalls f.events

/-- Whether a frame asks the window to close: the quit key is reported pressed,
or the window system delivers a close request. -/
def Frame.closes (f : Frame) : Bool :=
  decide (f.key = GLFW_PRESS) || decide (Event.windowClose ∈ f.events)

/-- The calls of the render loop entered with close flag `flag`. -/
def loopCalls (window : Nat) : List Frame → Bool → List Call
  | [], flag => [.glfwWindowShouldClose window flag]
  | f :: rest, flag =>
      if flag then [.glfwWindowShouldClose window true]
      else .glfwWindowShouldClose window false
            :: (iterationCalls window f ++ loopCalls window rest (flag || f.closes))

/-- Whether the render loop entered with close flag `flag` is left. -/
def loopLeft : List Frame → Bool → Bool
  | [], flag => flag
  | f :: rest, flag => if flag then true else loopLeft rest (flag || f.closes)

/-- How many iterations the render loop entered with close flag `flag` executes. -/
def loopIterations : List Frame → Bool → Nat
  | [], _ => 0
  | f :: rest, flag => if flag then 0 else 1 + loopIterations rest (flag || f.closes)

/-- The calls of the shader build, read off source lines 61-104. -/
def shaderCalls (env : Env) : List Call :=
  [.glCreateShader GL_VERTEX_SHADER env.vertexShader,
   .glShaderSource env.vertexShader 1 vertexShaderSource,
   .glCompileShader env.vertexShader,
   .glGetShaderiv env.vertexShader GL_COMPILE_STATUS env.vertexStatus]
    ++ (if env.vertexStatus = 0 then [.glGetShaderInfoLog env.vertexShader 512] else [])
    ++ [.glCreateShader GL_FRAGMENT_SHADER env.fragmentShader,
        .glShaderSource env.fragmentShader 1 fragmentShaderSource,
        .glCompileShader env.fragmentShader,
        .glGetShaderiv env.fragmentShader GL_COMPILE_STATUS env.fragmentStatus]
    ++ (if env.fragmentStatus = 0 then [.glGetShaderInfoLog env.fragmentShader 512] else [])
    ++ [.glCreateProgram env.shaderProgram,
        .glAttachShader env.shaderProgram env.vertexShader,
        .glAttachShader env.shaderProgram env.fragmentShader,
        .glLinkProgram env.shaderProgram,
        .glGetProgramiv env.shaderProgram GL_LINK_STATUS env.linkStatus]
    ++ (if env.linkStatus = 0 then [.glGetProgramInfoLog env.shaderProgram 512] else [])
    ++ [.glDeleteShader env.vertexShader, .glDeleteShader env.fragmentShader]

/-- The calls of the bootstrap, source lines 30-52, up to the driver binding. -/
def bootstrapCalls (env : Env) : List Call :=
  [.glfwInit,
   .glfwWindowHint GLFW_CONTEXT_VERSION_MAJOR 3,
   .glfwWindowHint GLFW_CONTEXT_VERSION_MINOR 3,
   .glfwWindowHint GLFW_OPENGL_PROFILE GLFW_OPENGL_CORE_PROFILE,
   .glfwCreateWindow 800 600 "LearnOpenGL" NULL NULL env.window,
   .glfwMakeContextCurrent env.window,
   .glfwSetFramebufferSizeCallback env.window,
   .gladLoadGLLoader env.glad]

/-- The three diagnostics of the shader build, as written to standard output. -/
def vertexMessage (env : Env) : String :=
  "ERROR::SHADER::VERTEX::COMPILATION_FAILED\n" ++ infoLogText 512 env.vertexLog ++ "\n"

def fragmentMessage (env : Env) : String :=
  "ERROR::SHADER::FRAGMENT::COMPILATION_FAILED\n" ++ infoLogText 512 env.fragmentLog ++ "\n"

def linkMessage (env : Env) : String :=
  "ERROR::SHADER::LINKING::FAILED\n" ++ infoLogText 512 env.linkLog ++ "\n"

/-- Delivery of a sequence of resize events `(window, width, height)` to
`framebuffer_size_callback`, one after the other. -/
def resizeAll (events : List (Nat × Int × Int)) (w : World) : World :=
  events.foldl (fun w e => framebuffer_size_callback e.1 e.2.1 e.2.2 w) w

/-- The kinds of call the render loop issues (its condition, its body and the
resize callback). -/
def Call.ofLoop : Call → Bool
  | .glfwWindowShouldClose .. | .glfwGetKey .. | .glfwSetWindowShouldClose ..
  | .glClearColor .. | .glClear .. | .glGenBuffers .. | .glBindBuffer .. | .glBufferData ..
  | .glfwSwapBuffers .. | .glfwPollEvents | .glViewport .. => true
  | _ => false

/-- The kinds of call the shader build issues. -/
def Call.ofShaderBuild : Call → Bool
  | .glCreateShader .. | .glShaderSource .. | .glCompileShader .. | .glGetShaderiv ..
  | .glGetShaderInfoLog .. | .glCreateProgram .. | .glAttachShader .. | .glLinkProgram ..
  | .glGetProgramiv .. | .glGetProgramInfoLog .. | .glDeleteShader .. => true
  | _ => false

/-! ## Concrete runs -/

/-- A run in which `glfwCreateWindow` returns `NULL`. -/
def envNoWindow : Env :=
  { window := NULL, glad := 1, vertexShader := 1, fragmentShader := 2, shaderProgram := 3,
    vertexStatus := 1, fragmentStatus := 1, linkStatus := 1,
    vertexLog := "", fragmentLog := "", linkLog := "", frames := [] }

/-- A run in which the window is created and `gladLoadGLLoader` returns 0. -/
def envNoGlad : Env :=
  { window := 7, glad := 0, vertexShader := 1, fragmentShader := 2, shaderProgram := 3,
    vertexStatus := 1, fragmentStatus := 1, linkStatus := 1,
    vertexLog := "", fragmentLog := "", linkLog := "", frames := [] }

/-- A run in which the fragment shader fails to compile and the link fails;
the first frame resizes the framebuffer, the second reports the quit key
pressed, a third frame is never played. -/
def envQuit : Env :=
  { window := 7, glad := 1, vertexShader := 1, fragmentShader := 2, shaderProgram := 3,
    vertexStatus := 1, fragmentStatus := 0, linkStatus := 0,
    vertexLog := "", fragmentLog := "0:5: syntax error", linkLog := "link failed",
    frames := [⟨0, 1, [.framebufferSize 640 480, .other]⟩, ⟨1, 2, []⟩, ⟨0, 3, []⟩] }

/-! ## Effects of the library calls -/

section effects

variable (w : World) (c : Call)

@[simp] theorem call_trace : (w.call c).trace = w.trace ++ [c] := rfl
@[simp] theorem call_stdout : (w.call c).stdout = w.stdout := rfl
@[simp] theorem call_shouldClose : (w.call c).shouldClose = w.shouldClose := rfl
@[simp] theorem call_callback :
    (w.call c).framebufferSizeCallback = w.framebufferSizeCallback := rfl
@[simp] theorem call_viewport : (w.call c).viewport = w.viewport := rfl
@[simp] theorem call_glError : (w.call c).glError = w.glError := rfl

@[simp] theorem print_trace (s : String) : (w.print s).trace = w.trace := rfl
@[simp] theorem print_stdout (s : String) : (w.print s).stdout = w.stdout ++ [s ++ "\n"] := rfl
@[simp] theorem print_shouldClose (s : String) : (w.print s).shouldClose = w.shouldClose := rfl
@[simp] theorem print_callback (s : String) :
    (w.print s).framebufferSizeCallback = w.framebufferSizeCallback := rfl
@[simp] theorem print_viewport (s : String) : (w.print s).viewport = w.viewport := rfl
@[simp] theorem print_glError (s : String) : (w.print s).glError = w.glError := rfl

@[simp] theorem glViewport_trace (x y a b : Int) :
    (glViewport x y a b w).trace = w.trace ++ [.glViewport x y a b] := by
  unfold glViewport; split <;> rfl

@[simp] theorem glViewport_stdout (x y a b : Int) :
    (glViewport x y a b w).stdout = w.stdout := by
  unfold glViewport; split <;> rfl

@[simp] theorem glViewport_shouldClose (x y a b : Int) :
    (glViewport x y a b w).shouldClose = w.shouldClose := by
  unfold glViewport; split <;> rfl

@[simp] theorem glViewport_callback (x y a b : Int) :
    (glViewport x y a b w).framebufferSizeCallback = w.framebufferSizeCallback := by
  unfold glViewport; split <;> rfl

end effects

/-! ## Effects of the program's functions -/

theorem processInput_trace (window : Nat) (key : Int) (w : World) :
    (processInput window key w).trace
      = w.trace ++ ([.glfwGetKey window GLFW_KEY_E key]
          ++ (if key = GLFW_PRESS then [.glfwSetWindowShouldClose window true] else [])) := by
  unfold processInput glfwSetWindowShouldClose
  by_cases h : key = GLFW_PRESS <;> simp [h]

theorem processInput_shouldClose (window : Nat) (key : Int) (w : World) :
    (processInput window key w).shouldClose = (w.shouldClose || decide (key = GLFW_PRESS)) := by
  unfold processInput glfwSetWindowShouldClose
  by_cases h : key = GLFW_PRESS <;> simp [h]

theorem processInput_stdout (window : Nat) (key : Int) (w : World) :
    (processInput window key w).stdout = w.stdout := by
  unfold processInput glfwSetWindowShouldClose
  by_cases h : key = GLFW_PRESS <;> simp [h]

theorem processInput_callback (window : Nat) (key : Int) (w : World) :
    (processInput window key w).framebufferSizeCallback = w.framebufferSizeCallback := by
  unfold processInput glfwSetWindowShouldClose
  by_cases h : key = GLFW_PRESS <;> simp [h]

theorem deliver_callback (window : Nat) (e : Event) (w : World) :
    (deliver window e w).framebufferSizeCallback = w.framebufferSizeCallback := by
  cases e <;> simp [deliver, framebuffer_size_callback]
  split <;> simp

theorem deliver_stdout (window : Nat) (e : Event) (w : World) :
    (deliver window e w).stdout = w.stdout := by
  cases e <;> simp [deliver, framebuffer_size_callback]
  split <;> simp

theorem deliver_shouldClose (window : Nat) (e : Event) (w : World) :
    (deliver window e w).shouldClose = (w.shouldClose || decide (e = .windowClose)) := by
  cases e <;> simp [deliver, framebuffer_size_callback]
  split <;> simp

theorem deliver_trace (window : Nat) (e : Event) (w : World)
    (h : w.framebufferSizeCallback = true) :
    (deliver window e w).trace = w.trace ++ callbackCalls [e] := by
  cases e <;> simp [deliver, framebuffer_size_callback, callbackCalls, h]

theorem foldl_deliver (window : Nat) (events : List Event) (w : World)
    (h : w.framebufferSizeCallback = true) :
    (events.foldl (fun w e => deliver window e w) w).trace = w.trace ++ callbackCalls events
    ∧ (events.foldl (fun w e => deliver window e w) w).stdout = w.stdout
    ∧ (events.foldl (fun w e => deliver window e w) w).framebufferSizeCallback = true
    ∧ (events.foldl (fun w e => deliver window e w) w).shouldClose
        = (w.shouldClose || decide (Event.windowClose ∈ events)) := by
  induction events generalizing w with
  | nil => simp [callbackCalls, h]
  | cons e rest ih =>
    have hc : (deliver window e w).framebufferSizeCallback = true := by
      rw [deliver_callback]; exact h
    obtain ⟨h1, h2, h3, h4⟩ := ih (deliver window e w) hc
    simp only [List.foldl_cons]
    refine ⟨?_, ?_, h3, ?_⟩
    · rw [h1, deliver_trace window e w h]
      cases e <;> simp [callbackCalls]
    · rw [h2, deliver_stdout]
    · rw [h4, deliver_shouldClose]
      cases e <;> simp [Bool.or_assoc, eq_comm]

theorem iteration_spec (window : Nat) (f : Frame) (w : World)
    (h : w.framebufferSizeCallback = true) :
    (iteration window f w).trace = w.trace ++ iterationCalls window f
    ∧ (iteration window f w).stdout = w.stdout
    ∧ (iteration window f w).framebufferSizeCallback = true
    ∧ (iteration window f w).shouldClose = (w.shouldClose || f.closes) := by
  unfold iteration glfwPollEvents
  obtain ⟨h1, h2, h3, h4⟩ := foldl_deliver window f.events
    (((((((processInput window f.key w).call _).call _).call _).call _).call _).call _ |>.call _)
    (by simp [processInput_callback, h])
  refine ⟨?_, ?_, h3, ?_⟩
  · rw [h1]; simp [processInput_trace, iterationCalls]
  · rw [h2]; simp [processInput_stdout]
  · rw [h4]; simp [processInput_shouldClose, Frame.closes, Bool.or_assoc]

theorem renderLoop_spec (window : Nat) (frames : List Frame) (w : World)
    (h : w.framebufferSizeCallback = true) :
    (renderLoop window frames w).1.trace = w.trace ++ loopCalls window frames w.shouldClose
    ∧ (renderLoop window frames w).1.stdout = w.stdout
    ∧ (renderLoop window frames w).2 = loopLeft frames w.shouldClose := by
  induction frames generalizing w with
  | nil => simp [renderLoop, glfwWindowShouldClose, loopCalls, loopLeft]
  | cons f rest ih =>
    by_cases hs : w.shouldClose = true
    · simp [renderLoop, glfwWindowShouldClose, loopCalls, loopLeft, hs]
    · have hs : w.shouldClose = false := by simpa using hs
      have hw : (w.call (.glfwWindowShouldClose window false)).framebufferSizeCallback = true := h
      obtain ⟨i1, i2, i3, i4⟩ :=
        iteration_spec window f (w.call (.glfwWindowShouldClose window false)) hw
      obtain ⟨h1, h2, h3⟩ := ih _ i3
      simp only [renderLoop, glfwWindowShouldClose, loopCalls, loopLeft, hs]
      simp only [Bool.false_eq_true, if_false]
      refine ⟨?_, ?_, ?_⟩
      · rw [h1, i1, i4]; simp [hs]
      · rw [h2, i2]; rfl
      · rw [h3, i4]; simp [hs]

theorem buildShaders_spec (env : Env) (w : World) :
    (buildShaders env w).trace = w.trace ++ shaderCalls env
    ∧ (buildShaders env w).stdout = w.stdout
        ++ ((if env.vertexStatus = 0 then [vertexMessage env] else [])
          ++ (if env.fragmentStatus = 0 then [fragmentMessage env] else [])
          ++ (if env.linkStatus = 0 then [linkMessage env] else []))
    ∧ (buildShaders env w).shouldClose = w.shouldClose
    ∧ (buildShaders env w).framebufferSizeCallback = w.framebufferSizeCallback := by
  unfold buildShaders shaderCalls vertexMessage fragmentMessage linkMessage
  by_cases hv : env.vertexStatus = 0 <;> by_cases hf : env.fragmentStatus = 0 <;>
    by_cases hl : env.linkStatus = 0 <;> simp [hv, hf, hl]

theorem beforeLoop_spec (env : Env) :
    (beforeLoop env).trace = bootstrapCalls env ++ shaderCalls env ++ [.glViewport 0 0 800 600]
    ∧ (beforeLoop env).stdout
        = (if env.vertexStatus = 0 then [vertexMessage env] else [])
          ++ (if env.fragmentStatus = 0 then [fragmentMessage env] else [])
          ++ (if env.linkStatus = 0 then [linkMessage env] else [])
    ∧ (beforeLoop env).shouldClose = false
    ∧ (beforeLoop env).framebufferSizeCallback = true := by
  unfold beforeLoop glfwSetFramebufferSizeCallback
  simp only [glViewport_trace, glViewport_stdout, glViewport_shouldClose, glViewport_callback]
  refine ⟨?_, ?_, ?_, ?_⟩
  · rw [(buildShaders_spec env _).1]; simp [World.init, bootstrapCalls, World.call]
  · rw [(buildShaders_spec env _).2.1]; simp [World.init, World.call]
  · rw [(buildShaders_spec env _).2.2.1]; simp [World.init, World.call]
  · rw [(buildShaders_spec env _).2.2.2]; simp [World.init, World.call]

/-- The run of `main` once the window exists and the driver is bound: the render
loop entered from `beforeLoop`, then `glfwTerminate` and `return 0` if it is left. -/
theorem main_eq (env : Env) (hw : env.window ≠ NULL) (hg : env.glad ≠ 0) :
    main env =
      if (renderLoop env.window env.frames (beforeLoop env)).2 then
        ((renderLoop env.window env.frames (beforeLoop env)).1.call .glfwTerminate, some 0)
      else ((renderLoop env.window env.frames (beforeLoop env)).1, none) := by
  unfold main beforeLoop
  simp only [hw, hg, if_false]

/-! ## The trace of a run that reaches the shader build -/

theorem mem_callbackCalls {c : Call} {events : List Event} (h : c ∈ callbackCalls events) :
    ∃ a b, c = .glViewport 0 0 a b := by
  unfold callbackCalls at h
  rw [List.mem_filterMap] at h
  obtain ⟨e, _, he⟩ := h
  cases e <;> simp at he
  exact ⟨_, _, he.symm⟩

theorem mem_iterationCalls {c : Call} {window : Nat} {f : Frame}
    (h : c ∈ iterationCalls window f) : c.ofLoop = true := by
  unfold iterationCalls at h
  simp only [List.mem_append] at h
  rcases h with ((h | h) | h) | h
  · simp at h; subst h; rfl
  · split at h
    · simp at h; subst h; rfl
    · simp at h
  · simp only [List.mem_cons, List.mem_singleton, List.not_mem_nil, or_false] at h
    rcases h with rfl | rfl | rfl | rfl | rfl | rfl | rfl <;> rfl
  · obtain ⟨a, b, rfl⟩ := mem_callbackCalls h
    rfl

theorem mem_loopCalls {c : Call} {window : Nat} {frames : List Frame} {flag : Bool}
    (h : c ∈ loopCalls window frames flag) : c.ofLoop = true := by
  induction frames generalizing flag with
  | nil => simp [loopCalls] at h; subst h; rfl
  | cons f rest ih =>
    unfold loopCalls at h
    split at h
    · simp at h; subst h; rfl
    · simp only [List.mem_cons, List.mem_append] at h
      rcases h with rfl | h | h
      · rfl
      · exact mem_iterationCalls h
      · exact ih h

theorem loopCalls_head (window : Nat) (frames : List Frame) (flag : Bool) :
    ∃ rest, loopCalls window frames flag = .glfwWindowShouldClose window flag :: rest := by
  cases frames with
  | nil => exact ⟨[], rfl⟩
  | cons f rest =>
    cases flag
    · exact ⟨_, by simp only [loopCalls, Bool.false_eq_true, if_false]; rfl⟩
    · exact ⟨[], by simp [loopCalls]⟩

theorem main_trace (env : Env) (hw : env.window ≠ NULL) (hg : env.glad ≠ 0) :
    (main env).1.trace
      = bootstrapCalls env ++ shaderCalls env ++ [.glViewport 0 0 800 600]
        ++ loopCalls env.window env.frames false
        ++ (if loopLeft env.frames false then [.glfwTerminate] else []) := by
  obtain ⟨b1, _, b3, b4⟩ := beforeLoop_spec env
  obtain ⟨l1, _, l3⟩ := renderLoop_spec env.window env.frames (beforeLoop env) b4
  rw [main_eq env hw hg, l3, b3]
  cases hl : loopLeft env.frames false <;> simp [l1, b1, b3]

theorem main_code (env : Env) (hw : env.window ≠ NULL) (hg : env.glad ≠ 0) :
    (main env).2 = if loopLeft env.frames false then some 0 else none := by
  obtain ⟨_, _, b3, b4⟩ := beforeLoop_spec env
  obtain ⟨_, _, l3⟩ := renderLoop_spec env.window env.frames (beforeLoop env) b4
  rw [main_eq env hw hg, l3, b3]
  cases hl : loopLeft env.frames false <;> simp

theorem filter_loopCalls (p : Call → Bool) (hp : ∀ c, c.ofLoop = true → p c = false)
    (window : Nat) (frames : List Frame) (flag : Bool) :
    (loopCalls window frames flag).filter p = [] := by
  rw [List.filter_eq_nil_iff]
  intro c hc
  simp [hp c (mem_loopCalls hc)]

theorem filter_terminate (p : Call → Bool) (hp : p .glfwTerminate = false) (b : Bool) :
    (if b then [Call.glfwTerminate] else []).filter p = [] := by
  cases b <;> simp [hp]

/-! ## The resize callback and the close flag -/

theorem framebuffer_size_callback_eq (window : Nat) (a b : Int) (w : World)
    (ha : 0 ≤ a) (hb : 0 ≤ b) :
    framebuffer_size_callback window a b w
      = { w with trace := w.trace ++ [.glViewport 0 0 a b], viewport := ⟨0, 0, a, b⟩ } := by
  unfold framebuffer_size_callback glViewport
  have h : ¬ (a < 0 ∨ b < 0) := by omega
  simp only [h, if_false]
  rfl

theorem resizeAll_eq (events : List (Nat × Int × Int)) (w : World)
    (h : ∀ e ∈ events, 0 ≤ e.2.1 ∧ 0 ≤ e.2.2) :
    resizeAll events w
      = { w with
          trace := w.trace ++ events.map (fun e => .glViewport 0 0 e.2.1 e.2.2),
          viewport := match events.getLast? with
            | none => w.viewport
            | some e => ⟨0, 0, e.2.1, e.2.2⟩ } := by
  induction events generalizing w with
  | nil => simp [resizeAll]
  | cons e rest ih =>
    have he := h e (List.mem_cons_self _ _)
    have hrest : ∀ e ∈ rest, 0 ≤ e.2.1 ∧ 0 ≤ e.2.2 :=
      fun x hx => h x (List.mem_cons_of_mem _ hx)
    have step : resizeAll (e :: rest) w
        = resizeAll rest (framebuffer_size_callback e.1 e.2.1 e.2.2 w) := rfl
    rw [step, ih _ hrest, framebuffer_size_callback_eq _ _ _ _ he.1 he.2]
    cases rest with
    | nil => simp
    | cons e2 rest2 =>
      have hl : (e2 :: rest2).getLast? = some ((e2 :: rest2).getLast (by simp)) :=
        List.getLast?_eq_getLast _ _
      simp only [List.getLast?_cons_cons, hl]
      simp

theorem foldl_deliver_shouldClose (window : Nat) (events : List Event) (w : World) :
    (events.foldl (fun w e => deliver window e w) w).shouldClose
      = (w.shouldClose || decide (Event.windowClose ∈ events)) := by
  induction events generalizing w with
  | nil => simp
  | cons e rest ih =>
    simp only [List.foldl_cons]
    rw [ih, deliver_shouldClose]
    cases e <;> simp [Bool.or_assoc, eq_comm]

theorem iteration_shouldClose (window : Nat) (f : Frame) (w : World) :
    (iteration window f w).shouldClose = (w.shouldClose || f.closes) := by
  unfold iteration glfwPollEvents
  rw [foldl_deliver_shouldClose]
  simp [processInput_shouldClose, Frame.closes, Bool.or_assoc]

theorem renderLoop_closed (window : Nat) (frames : List Frame) (w : World)
    (h : w.shouldClose = true) :
    renderLoop window frames w = (w.call (.glfwWindowShouldClose window true), true) := by
  cases frames <;> simp [renderLoop, glfwWindowShouldClose, h]

theorem renderLoop_open (window : Nat) (f : Frame) (rest : List Frame) (w : World)
    (h : w.shouldClose = false) :
    renderLoop window (f :: rest) w
      = renderLoop window rest (iteration window f (w.call (.glfwWindowShouldClose window false))) := by
  simp [renderLoop, glfwWindowShouldClose, h]

theorem renderLoop_append_closes (window : Nat) (pre : List Frame) (f : Frame)
    (post : List Frame) (w : World) (hf : f.closes = true) :
    renderLoop window (pre ++ f :: post) w = renderLoop window (pre ++ [f]) w := by
  induction pre generalizing w with
  | nil =>
    cases hs : w.shouldClose
    · simp only [List.nil_append]
      rw [renderLoop_open _ _ _ _ hs, renderLoop_open _ _ _ _ hs,
        renderLoop_closed, renderLoop_closed]
      · rw [iteration_shouldClose]; simp [hf]
      · rw [iteration_shouldClose]; simp [hf]
    · rw [renderLoop_closed _ _ _ hs, renderLoop_closed _ _ _ hs]
  | cons g pre ih =>
    cases hs : w.shouldClose
    · simp only [List.cons_append]
      rw [renderLoop_open _ _ _ _ hs, renderLoop_open _ _ _ _ hs, ih]
    · rw [renderLoop_closed _ _ _ hs, renderLoop_closed _ _ _ hs]

theorem main_frames_irrelevant_after_close (env : Env) (pre : List Frame) (f : Frame)
    (post : List Frame) (hw : env.window ≠ NULL) (hg : env.glad ≠ 0)
    (hfr : env.frames = pre ++ f :: post) (hf : f.closes = true) :
    main env = main { env with frames := pre ++ [f] } := by
  have hb : beforeLoop { env with frames := pre ++ [f] } = beforeLoop env := rfl
  rw [main_eq env hw hg, main_eq { env with frames := pre ++ [f] } hw hg, hb, hfr]
  simp only []
  rw [renderLoop_append_closes _ _ _ _ _ hf]

theorem loopChecks_append (a b : List Call) : loopChecks (a ++ b) = loopChecks a ++ loopChecks b := by
  simp [loopChecks, List.filterMap_append]

theorem loopChecks_iterationCalls (window : Nat) (f : Frame) :
    loopChecks (iterationCalls window f) = [] := by
  unfold loopChecks
  rw [List.filterMap_eq_nil_iff]
  intro c hc
  unfold iterationCalls at hc
  simp only [List.mem_append] at hc
  rcases hc with ((h | h) | h) | h
  · simp at h; subst h; rfl
  · split at h
    · simp at h; subst h; rfl
    · simp at h
  · simp only [List.mem_cons, List.mem_singleton, List.not_mem_nil, or_false] at h
    rcases h with rfl | rfl | rfl | rfl | rfl | rfl | rfl <;> rfl
  · obtain ⟨a, b, rfl⟩ := mem_callbackCalls h
    rfl

theorem loopCalls_true (window : Nat) (frames : List Frame) :
    loopCalls window frames true = [.glfwWindowShouldClose window true] := by
  cases frames <;> simp [loopCalls]

theorem loopLeft_true (frames : List Frame) : loopLeft frames true = true := by
  cases frames <;> simp [loopLeft]

theorem loopCalls_false_cons (window : Nat) (f : Frame) (rest : List Frame) :
    loopCalls window (f :: rest) false
      = .glfwWindowShouldClose window false
          :: (iterationCalls window f ++ loopCalls window rest f.closes) := by
  simp [loopCalls]

theorem loopLeft_false_cons (f : Frame) (rest : List Frame) :
    loopLeft (f :: rest) false = loopLeft rest f.closes := by
  simp [loopLeft]

/-- A loop that is left was closed by a frame: the frames before it leave the
window open, every check before the last one observes false. -/
theorem loopLeft_spec (window : Nat) (frames : List Frame) (h : loopLeft frames false = true) :
    ∃ pre f post, frames = pre ++ f :: post
      ∧ (∀ g ∈ pre, g.closes = false) ∧ f.closes = true
      ∧ loopChecks (loopCalls window frames false)
          = List.replicate (pre.length + 1) false ++ [true]
      ∧ ∃ init, loopCalls window frames false = init ++ [.glfwWindowShouldClose window true]
          ∧ .glfwTerminate ∉ init := by
  induction frames with
  | nil => simp [loopLeft] at h
  | cons f rest ih =>
    rw [loopLeft_false_cons] at h
    rw [loopCalls_false_cons]
    cases hf : f.closes
    · rw [hf] at h
      obtain ⟨pre, g, post, hsplit, hpre, hg, hchecks, init, hinit, hterm⟩ := ih h
      refine ⟨f :: pre, g, post, by simp [hsplit], ?_, hg, ?_, ?_⟩
      · intro x hx
        rcases List.mem_cons.mp hx with rfl | hx
        · exact hf
        · exact hpre x hx
      · have : loopChecks (.glfwWindowShouldClose window false
            :: (iterationCalls window f ++ loopCalls window rest false))
            = false :: loopChecks (iterationCalls window f ++ loopCalls window rest false) := rfl
        rw [this, loopChecks_append, loopChecks_iterationCalls, hchecks]
        simp [List.replicate_succ]
      · refine ⟨.glfwWindowShouldClose window false :: (iterationCalls window f ++ init), ?_, ?_⟩
        · rw [hinit]; simp
        · intro hmem
          simp only [List.mem_cons, List.mem_append] at hmem
          rcases hmem with hmem | hmem | hmem
          · cases hmem
          · have := mem_iterationCalls hmem
            simp [Call.ofLoop] at this
          · exact hterm hmem
    · refine ⟨[], f, rest, rfl, by simp, hf, ?_, ?_⟩
      · have : loopChecks (.glfwWindowShouldClose window false
            :: (iterationCalls window f ++ loopCalls window rest true))
            = false :: loopChecks (iterationCalls window f ++ loopCalls window rest true) := rfl
        rw [this, loopChecks_append, loopChecks_iterationCalls, loopCalls_true]
        rfl
      · refine ⟨.glfwWindowShouldClose window false :: iterationCalls window f, ?_, ?_⟩
        · rw [loopCalls_true]; simp
        · intro hmem
          simp only [List.mem_cons] at hmem
          rcases hmem with hmem | hmem
          · cases hmem
          · have := mem_iterationCalls hmem
            simp [Call.ofLoop] at this

theorem loopChecks_shaderCalls (env : Env) : loopChecks (shaderCalls env) = [] := by
  by_cases hv : env.vertexStatus = 0 <;> by_cases hf : env.fragmentStatus = 0 <;>
    by_cases hl : env.linkStatus = 0 <;> simp [loopChecks, shaderCalls, hv, hf, hl]

theorem not_mem_shaderCalls_terminate (env : Env) : .glfwTerminate ∉ shaderCalls env := by
  by_cases hv : env.vertexStatus = 0 <;> by_cases hf : env.fragmentStatus = 0 <;>
    by_cases hl : env.linkStatus = 0 <;> simp [shaderCalls, hv, hf, hl]

theorem buffersGenerated_append (a b : List Call) :
    buffersGenerated (a ++ b) = buffersGenerated a + buffersGenerated b := by
  simp [buffersGenerated]

theorem buffersGenerated_callbackCalls (events : List Event) :
    buffersGenerated (callbackCalls events) = 0 := by
  unfold buffersGenerated
  apply List.sum_eq_zero
  intro x hx
  rw [List.mem_map] at hx
  obtain ⟨c, hc, rfl⟩ := hx
  obtain ⟨a, b, rfl⟩ := mem_callbackCalls hc
  rfl

theorem count_pollEvents_callbackCalls (events : List Event) :
    (callbackCalls events).count .glfwPollEvents = 0 := by
  rw [List.count_eq_zero]
  intro h
  obtain ⟨a, b, hab⟩ := mem_callbackCalls h
  cases hab

theorem iterationCalls_counts (window : Nat) (f : Frame) :
    buffersGenerated (iterationCalls window f) = 1
    ∧ (iterationCalls window f).count .glfwPollEvents = 1 := by
  unfold iterationCalls
  constructor
  · rw [buffersGenerated_append, buffersGenerated_callbackCalls]
    by_cases hk : f.key = GLFW_PRESS <;> simp [buffersGenerated, hk]
  · rw [List.count_append, count_pollEvents_callbackCalls]
    by_cases hk : f.key = GLFW_PRESS <;> simp [hk]

theorem loopCalls_counts (window : Nat) (frames : List Frame) (flag : Bool) :
    (loopCalls window frames flag).count .glfwPollEvents = loopIterations frames flag
    ∧ buffersGenerated (loopCalls window frames flag) = loopIterations frames flag
    ∧ loopIterations frames flag ≤ frames.length := by
  induction frames generalizing flag with
  | nil => cases flag <;> simp [loopCalls, loopIterations, buffersGenerated]
  | cons f rest ih =>
    cases flag
    · obtain ⟨h2, h3, h4⟩ := ih f.closes
      obtain ⟨i1, i2⟩ := iterationCalls_counts window f
      rw [loopCalls_false_cons]
      have hb : buffersGenerated (.glfwWindowShouldClose window false
            :: (iterationCalls window f ++ loopCalls window rest f.closes))
          = buffersGenerated (iterationCalls window f ++ loopCalls window rest f.closes) := by
        simp [buffersGenerated]
      refine ⟨?_, ?_, ?_⟩
      · simp [loopIterations, List.count_cons, List.count_append, i2, h2]
      · rw [hb, buffersGenerated_append, i1, h3]
        simp [loopIterations]
      · simp [loopIterations]; omega
    · simp [loopCalls, loopIterations, buffersGenerated]

theorem shaderCalls_counts (env : Env) :
    buffersGenerated (shaderCalls env) = 0
    ∧ (shaderCalls env).count .glfwPollEvents = 0 := by
  by_cases hv : env.vertexStatus = 0 <;> by_cases hf : env.fragmentStatus = 0 <;>
    by_cases hl : env.linkStatus = 0 <;> simp [buffersGenerated, shaderCalls, hv, hf, hl]

theorem mem_shaderCalls {env : Env} {c : Call} (h : c ∈ shaderCalls env) :
    c.ofShaderBuild = true := by
  have hall : (shaderCalls env).all Call.ofShaderBuild = true := by
    by_cases hv : env.vertexStatus = 0 <;> by_cases hf : env.fragmentStatus = 0 <;>
      by_cases hl : env.linkStatus = 0 <;> simp [shaderCalls, Call.ofShaderBuild, hv, hf, hl]
  exact List.all_eq_true.mp hall c h

theorem loopCalls_eq_flatMap (window : Nat) (frames : List Frame) (flag : Bool) :
    loopCalls window frames flag
      = (frames.take (loopIterations frames flag)).flatMap
            (fun f => .glfwWindowShouldClose window false :: iterationCalls window f)
          ++ [.glfwWindowShouldClose window (loopLeft frames flag)] := by
  induction frames generalizing flag with
  | nil => simp [loopCalls, loopIterations, loopLeft]
  | cons f rest ih =>
    cases flag
    · rw [loopCalls_false_cons, ih f.closes]
      have hn : loopIterations (f :: rest) false = loopIterations rest f.closes + 1 := by
        simp [loopIterations]; omega
      rw [hn, List.take_succ_cons, List.flatMap_cons, loopLeft_false_cons]
      simp
    · simp [loopCalls, loopIterations, loopLeft]

theorem main_trace_of_no_window (env : Env) (h : env.window = NULL) :
    (main env).1.trace =
      [.glfwInit,
       .glfwWindowHint GLFW_CONTEXT_VERSION_MAJOR 3,
       .glfwWindowHint GLFW_CONTEXT_VERSION_MINOR 3,
       .glfwWindowHint GLFW_OPENGL_PROFILE GLFW_OPENGL_CORE_PROFILE,
       .glfwCreateWindow 800 600 "LearnOpenGL" NULL NULL NULL,
       .glfwTerminate] := by
  simp [main, h, World.init]

theorem main_trace_of_no_glad (env : Env) (hw : env.window ≠ NULL) (hg : env.glad = 0) :
    (main env).1.trace =
      [.glfwInit,
       .glfwWindowHint GLFW_CONTEXT_VERSION_MAJOR 3,
       .glfwWindowHint GLFW_CONTEXT_VERSION_MINOR 3,
       .glfwWindowHint GLFW_OPENGL_PROFILE GLFW_OPENGL_CORE_PROFILE,
       .glfwCreateWindow 800 600 "LearnOpenGL" NULL NULL env.window,
       .glfwMakeContextCurrent env.window,
       .glfwSetFramebufferSizeCallback env.window,
       .gladLoadGLLoader 0] := by
  simp [main, hw, hg, World.init, glfwSetFramebufferSizeCallback, World.call]

/-- Whatever the run, every call of the trace is a call of the bootstrap, of
the shader build or of the loop, `glViewport` or `glfwTerminate`. -/
theorem mem_main_trace {env : Env} {c : Call} (h : c ∈ (main env).1.trace) :
    c ∈ bootstrapCalls env ∨ c.ofShaderBuild = true ∨ c.ofLoop = true ∨ c = .glfwTerminate := by
  by_cases hw : env.window = NULL
  · rw [main_trace_of_no_window env hw] at h
    simp only [List.mem_cons, List.mem_singleton, List.not_mem_nil, or_false] at h
    rcases h with rfl | rfl | rfl | rfl | rfl | rfl <;> simp [bootstrapCalls, hw]
  · by_cases hg : env.glad = 0
    · rw [main_trace_of_no_glad env hw hg] at h
      left
      simpa [bootstrapCalls, hg] using h
    · rw [main_trace env hw hg] at h
      simp only [List.mem_append] at h
      rcases h with (((h | h) | h) | h) | h
      · exact Or.inl h
      · exact Or.inr (Or.inl (mem_shaderCalls h))
      · simp at h; subst h; exact Or.inr (Or.inr (Or.inl rfl))
      · exact Or.inr (Or.inr (Or.inl (mem_loopCalls h)))
      · split at h <;> simp at h
        exact Or.inr (Or.inr (Or.inr h))

theorem bootstrapCalls_not_gl {env : Env} {c : Call} (h : c ∈ bootstrapCalls env) :
    c.isGl = false ∧ c.ofShaderBuild = false ∧ c.ofLoop = false ∧ c.takesProgram = false := by
  simp only [bootstrapCalls, List.mem_cons, List.mem_singleton, List.not_mem_nil, or_false] at h
  rcases h with rfl | rfl | rfl | rfl | rfl | rfl | rfl | rfl <;>
    simp [Call.isGl, Call.ofShaderBuild, Call.ofLoop, Call.takesProgram]

theorem prefix_of_split {B R pre post : List Call} {c : Call}
    (h : pre ++ c :: post = B ++ R) (hc : c ∉ B) : ∃ rest, pre = B ++ rest := by
  rcases List.append_eq_append_iff.mp h with ⟨a, ha, hb⟩ | ⟨a, ha, _⟩
  · cases a with
    | nil => exact ⟨[], by simp [ha]⟩
    | cons x xs =>
      simp only [List.cons_append, List.cons.injEq] at hb
      exact absurd (by rw [ha, hb.1]; simp) hc
  · exact ⟨a, ha⟩

/-! ## The two fatal paths -/

/-- C1: when `glfwCreateWindow` returns `NULL`, `main` prints exactly
"Failed to create GLFW window" and a newline, calls `glfwTerminate` and returns
-1; its whole call trace is `glfwInit`, the three hints, the window creation and
`glfwTerminate`, so the context is never made current, GLAD is never loaded, no
shader, program or buffer object is created and the render-loop condition is
never checked (no iteration runs, no graphics call is issued). -/
theorem main_window_creation_failure (env : Env) (h : env.window = NULL) :
    (main env).2 = some (-1)
    ∧ (main env).1.stdout = ["Failed to create GLFW window\n"]
    ∧ (main env).1.trace =
        [.glfwInit,
         .glfwWindowHint GLFW_CONTEXT_VERSION_MAJOR 3,
         .glfwWindowHint GLFW_CONTEXT_VERSION_MINOR 3,
         .glfwWindowHint GLFW_OPENGL_PROFILE GLFW_OPENGL_CORE_PROFILE,
         .glfwCreateWindow 800 600 "LearnOpenGL" NULL NULL NULL,
         .glfwTerminate]
    ∧ (∀ c ∈ (main env).1.trace,
        (∀ window, c ≠ .glfwMakeContextCurrent window)
        ∧ (∀ result, c ≠ .gladLoadGLLoader result)
        ∧ c.createsObject = false ∧ c.isGl = false
        ∧ c.isLoopCheck = false ∧ c.isRendering = false) := by
  have ht : (main env).1.trace =
      [.glfwInit,
       .glfwWindowHint GLFW_CONTEXT_VERSION_MAJOR 3,
       .glfwWindowHint GLFW_CONTEXT_VERSION_MINOR 3,
       .glfwWindowHint GLFW_OPENGL_PROFILE GLFW_OPENGL_CORE_PROFILE,
       .glfwCreateWindow 800 600 "LearnOpenGL" NULL NULL NULL,
       .glfwTerminate] := by
    simp [main, h, World.init]
  refine ⟨by simp [main, h], ?_, ht, ?_⟩
  · simp only [main, h, if_true, print_stdout, call_stdout]
    rfl
  · rw [ht]
    intro c hc
    simp only [List.mem_cons, List.mem_singleton, List.not_mem_nil, or_false] at hc
    rcases hc with rfl | rfl | rfl | rfl | rfl | rfl <;>
      simp [Call.createsObject, Call.isGl, Call.isLoopCheck, Call.isRendering]

/-- A run for C1: the environment `envNoWindow`. -/
theorem main_window_creation_failure_witness :
    envNoWindow.window = NULL
    ∧ (main envNoWindow).2 = some (-1)
    ∧ (main envNoWindow).1.stdout = ["Failed to create GLFW window\n"]
    ∧ (main envNoWindow).1.trace =
        [.glfwInit,
         .glfwWindowHint GLFW_CONTEXT_VERSION_MAJOR 3,
         .glfwWindowHint GLFW_CONTEXT_VERSION_MINOR 3,
         .glfwWindowHint GLFW_OPENGL_PROFILE GLFW_OPENGL_CORE_PROFILE,
         .glfwCreateWindow 800 600 "LearnOpenGL" NULL NULL NULL,
         .glfwTerminate]
    ∧ (∀ c ∈ (main envNoWindow).1.trace,
        (∀ window, c ≠ .glfwMakeContextCurrent window)
        ∧ (∀ result, c ≠ .gladLoadGLLoader result)
        ∧ c.createsObject = false ∧ c.isGl = false
        ∧ c.isLoopCheck = false ∧ c.isRendering = false) :=
  ⟨rfl, main_window_creation_failure envNoWindow rfl⟩

/-- C2: when the window is created and `gladLoadGLLoader` returns 0, `main`
prints exactly "Failed to initialize GLAD" and a newline and returns -1; the
failed binding is the last call of the run, so no shader is created or
compiled, no program is linked, no graphics call is issued and the render-loop
condition is never checked. -/
theorem main_driver_binding_failure (env : Env) (hw : env.window ≠ NULL) (hg : env.glad = 0) :
    (main env).2 = some (-1)
    ∧ (main env).1.stdout = ["Failed to initialize GLAD\n"]
    ∧ (main env).1.trace =
        [.glfwInit,
         .glfwWindowHint GLFW_CONTEXT_VERSION_MAJOR 3,
         .glfwWindowHint GLFW_CONTEXT_VERSION_MINOR 3,
         .glfwWindowHint GLFW_OPENGL_PROFILE GLFW_OPENGL_CORE_PROFILE,
         .glfwCreateWindow 800 600 "LearnOpenGL" NULL NULL env.window,
         .glfwMakeContextCurrent env.window,
         .glfwSetFramebufferSizeCallback env.window,
         .gladLoadGLLoader 0]
    ∧ (∀ c ∈ (main env).1.trace,
        c.isGl = false ∧ c.createsObject = false
        ∧ c.isLoopCheck = false ∧ c.isRendering = false) := by
  have ht : (main env).1.trace =
      [.glfwInit,
       .glfwWindowHint GLFW_CONTEXT_VERSION_MAJOR 3,
       .glfwWindowHint GLFW_CONTEXT_VERSION_MINOR 3,
       .glfwWindowHint GLFW_OPENGL_PROFILE GLFW_OPENGL_CORE_PROFILE,
       .glfwCreateWindow 800 600 "LearnOpenGL" NULL NULL env.window,
       .glfwMakeContextCurrent env.window,
       .glfwSetFramebufferSizeCallback env.window,
       .gladLoadGLLoader 0] := by
    simp [main, hw, hg, World.init, glfwSetFramebufferSizeCallback, World.call]
  refine ⟨by simp [main, hw, hg], ?_, ht, ?_⟩
  · simp only [main, hw, hg, if_true, if_false, print_stdout, call_stdout]
    rfl
  · rw [ht]
    intro c hc
    simp only [List.mem_cons, List.mem_singleton, List.not_mem_nil, or_false] at hc
    rcases hc with rfl | rfl | rfl | rfl | rfl | rfl | rfl | rfl <;>
      simp [Call.createsObject, Call.isGl, Call.isLoopCheck, Call.isRendering]

/-- A run for C2: the environment `envNoGlad`. -/
theorem main_driver_binding_failure_witness :
    (envNoGlad.window ≠ NULL ∧ envNoGlad.glad = 0)
    ∧ (main envNoGlad).2 = some (-1)
    ∧ (main envNoGlad).1.stdout = ["Failed to initialize GLAD\n"]
    ∧ (main envNoGlad).1.trace =
        [.glfwInit,
         .glfwWindowHint GLFW_CONTEXT_VERSION_MAJOR 3,
         .glfwWindowHint GLFW_CONTEXT_VERSION_MINOR 3,
         .glfwWindowHint GLFW_OPENGL_PROFILE GLFW_OPENGL_CORE_PROFILE,
         .glfwCreateWindow 800 600 "LearnOpenGL" NULL NULL envNoGlad.window,
         .glfwMakeContextCurrent envNoGlad.window,
         .glfwSetFramebufferSizeCallback envNoGlad.window,
         .gladLoadGLLoader 0]
    ∧ (∀ c ∈ (main envNoGlad).1.trace,
        c.isGl = false ∧ c.createsObject = false
        ∧ c.isLoopCheck = false ∧ c.isRendering = false) :=
  ⟨⟨by decide, rfl⟩, main_driver_binding_failure envNoGlad (by decide) rfl⟩

/-! ## The shader build -/

/-- C4: for every sequence of framebuffer resize events with non-negative
dimensions delivered to `framebuffer_size_callback`, from any world and with
any window arguments, the world right after each event `(window, width,
height)` of the sequence is the world before the sequence with the viewport
replaced by (0, 0, width, height) and the trace extended by one `glViewport`
call per event delivered so far: the viewport does not depend on the previous
viewport nor on the window argument, and standard output, the close flag, the
callback registration and the error flag are unchanged.  Inside
`glfwPollEvents` a resize event is handed to this callback once it is
registered. -/
theorem framebuffer_size_callback_sets_viewport (events : List (Nat × Int × Int)) (w : World)
    (h : ∀ e ∈ events, 0 ≤ e.2.1 ∧ 0 ≤ e.2.2) :
    (∀ pre e post, events = pre ++ e :: post →
      resizeAll (pre ++ [e]) w
        = { w with
            trace := w.trace ++ (pre ++ [e]).map (fun e => .glViewport 0 0 e.2.1 e.2.2),
            viewport := ⟨0, 0, e.2.1, e.2.2⟩ })
    ∧ (∀ window width height (w0 : World), w0.framebufferSizeCallback = true →
        deliver window (.framebufferSize width height) w0
          = framebuffer_size_callback window width height w0) := by
  constructor
  · intro pre e post hsplit
    have hpre : ∀ x ∈ pre ++ [e], 0 ≤ x.2.1 ∧ 0 ≤ x.2.2 := by
      intro x hx
      apply h x
      rw [hsplit]
      simp only [List.mem_append, List.mem_singleton] at hx
      rcases hx with hx | rfl
      · exact List.mem_append_left _ hx
      · exact List.mem_append_right _ (List.mem_cons_self _ _)
    rw [resizeAll_eq _ _ hpre]
    simp
  · intro window width height w0 h0
    simp [deliver, h0]

/-- A run for C4: three resize events on three different windows, starting
from the world at program start. -/
theorem framebuffer_size_callback_sets_viewport_witness :
    (∀ e ∈ [((1 : Nat), (640 : Int), (480 : Int)), (2, 0, 0), (3, 1920, 1080)],
        0 ≤ e.2.1 ∧ 0 ≤ e.2.2)
    ∧ (resizeAll [(1, 640, 480), (2, 0, 0)] World.init).viewport = ⟨0, 0, 0, 0⟩
    ∧ (resizeAll [(1, 640, 480), (2, 0, 0), (3, 1920, 1080)] World.init).viewport
        = ⟨0, 0, 1920, 1080⟩ :=
  ⟨by decide,
   congrArg World.viewport
    ((framebuffer_size_callback_sets_viewport
        [(1, 640, 480), (2, 0, 0), (3, 1920, 1080)] World.init (by decide)).1
      [(1, 640, 480)] (2, 0, 0) [(3, 1920, 1080)] rfl),
   congrArg World.viewport
    ((framebuffer_size_callback_sets_viewport
        [(1, 640, 480), (2, 0, 0), (3, 1920, 1080)] World.init (by decide)).1
      [(1, 640, 480), (2, 0, 0)] (3, 1920, 1080) [] rfl)⟩

/-! ## The render loop -/

/-- C5: in a render-loop iteration that is executed (the check at the loop top
found the window open) and in which `glfwGetKey` reports `GLFW_KEY_E` pressed,
`processInput` sets the close flag, the flag is still set at the end of the
iteration, the next check of the loop condition observes it and the loop is
left: after the iteration the loop issues that one check and nothing else, so
no later iteration clears, allocates or uploads a buffer or swaps buffers, and
whatever frames follow are never played; `main` then returns 0.  Conversely,
when the key is not reported pressed, `processInput` leaves the close flag as
it was. -/
theorem quit_key_closes_window (window : Nat) (f : Frame) (rest : List Frame) (w : World)
    (hopen : w.shouldClose = false) (hkey : f.key = GLFW_PRESS) :
    (∀ w0 : World, (processInput window f.key w0).shouldClose = true)
    ∧ (iteration window f (w.call (.glfwWindowShouldClose window false))).shouldClose = true
    ∧ renderLoop window (f :: rest) w
        = ((iteration window f (w.call (.glfwWindowShouldClose window false))).call
              (.glfwWindowShouldClose window true), true)
    ∧ (∀ (env : Env) (pre post : List Frame), env.window ≠ NULL → env.glad ≠ 0 →
        env.frames = pre ++ f :: post →
          main env = main { env with frames := pre ++ [f] } ∧ (main env).2 = some 0)
    ∧ (∀ (key : Int) (w0 : World), key ≠ GLFW_PRESS →
        (processInput window key w0).shouldClose = w0.shouldClose) := by
  have hcl : f.closes = true := by simp [Frame.closes, hkey]
  have hit : (iteration window f (w.call (.glfwWindowShouldClose window false))).shouldClose
      = true := by
    rw [iteration_shouldClose]; simp [hcl]
  refine ⟨?_, hit, ?_, ?_, ?_⟩
  · intro w0
    rw [processInput_shouldClose]; simp [hkey]
  · rw [renderLoop_open _ _ _ _ hopen, renderLoop_closed _ _ _ hit]
  · intro env pre post hw hg hfr
    refine ⟨main_frames_irrelevant_after_close env pre f post hw hg hfr hcl, ?_⟩
    rw [main_code env hw hg, hfr]
    have : loopLeft (pre ++ f :: post) false = true := by
      clear hfr
      induction pre with
      | nil => simp [loopLeft, hcl, loopLeft_true]
      | cons g pre ih =>
        rw [List.cons_append, loopLeft_false_cons]
        cases g.closes
        · exact ih
        · exact loopLeft_true _
    simp [this]
  · intro key w0 hne
    rw [processInput_shouldClose]; simp [hne]

/-- A run for C5: the quit key is reported pressed in a frame played from the
world at program start; one more frame is waiting. -/
theorem quit_key_closes_window_witness :
    (World.init.shouldClose = false ∧ (Frame.mk 1 2 []).key = GLFW_PRESS)
    ∧ ((∀ w0 : World, (processInput 7 (Frame.mk 1 2 []).key w0).shouldClose = true)
    ∧ (iteration 7 (Frame.mk 1 2 []) (World.init.call (.glfwWindowShouldClose 7 false))).shouldClose = true
    ∧ renderLoop 7 ((Frame.mk 1 2 []) :: [Frame.mk 0 3 []]) World.init
        = ((iteration 7 (Frame.mk 1 2 []) (World.init.call (.glfwWindowShouldClose 7 false))).call
              (.glfwWindowShouldClose 7 true), true)
    ∧ (∀ (env : Env) (pre post : List Frame), env.window ≠ NULL → env.glad ≠ 0 →
        env.frames = pre ++ (Frame.mk 1 2 []) :: post →
          main env = main { env with frames := pre ++ [(Frame.mk 1 2 [])] } ∧ (main env).2 = some 0)
    ∧ (∀ (key : Int) (w0 : World), key ≠ GLFW_PRESS →
        (processInput 7 key w0).shouldClose = w0.shouldClose)) :=
  ⟨⟨rfl, rfl⟩, quit_key_closes_window 7 (Frame.mk 1 2 []) [Frame.mk 0 3 []] World.init rfl rfl⟩

/-- C6: in a run in which the window is created and the driver bound, the
window requested is 800 by 600, and if `main` returns at all it returns 0 and
the run was closed by a frame: the frames split into frames that leave the
window open, one frame in which the quit key is reported pressed or the window
system delivers a close request, and frames never played; the checks of the
loop condition observed false once per executed iteration and true exactly at
the last check; the trace ends with that check followed by `glfwTerminate`,
which occurs nowhere else. -/
theorem main_exits_only_when_closed (env : Env) (code : Int) (hw : env.window ≠ NULL)
    (hg : env.glad ≠ 0) (hret : (main env).2 = some code) :
    code = 0
    ∧ Call.glfwCreateWindow 800 600 "LearnOpenGL" NULL NULL env.window ∈ (main env).1.trace
    ∧ (∃ pre f post, env.frames = pre ++ f :: post
        ∧ (∀ g ∈ pre, g.key ≠ GLFW_PRESS ∧ Event.windowClose ∉ g.events)
        ∧ (f.key = GLFW_PRESS ∨ Event.windowClose ∈ f.events)
        ∧ loopChecks (main env).1.trace = List.replicate (pre.length + 1) false ++ [true])
    ∧ (∃ init, (main env).1.trace
          = init ++ [.glfwWindowShouldClose env.window true, .glfwTerminate]
        ∧ Call.glfwTerminate ∉ init)
    ∧ (main env).1.trace.count .glfwTerminate = 1 := by
  have hc := main_code env hw hg
  have ht := main_trace env hw hg
  rw [hc] at hret
  have hleft : loopLeft env.frames false = true := by
    cases hl : loopLeft env.frames false
    · simp [hl] at hret
    · rfl
  rw [hleft] at ht
  simp only [if_true] at ht
  obtain ⟨pre, f, post, hsplit, hpre, hf, hchecks, init, hinit, hterm⟩ :=
    loopLeft_spec env.window env.frames hleft
  have hinit' : Call.glfwTerminate ∉ bootstrapCalls env ++ shaderCalls env
      ++ [.glViewport 0 0 800 600] ++ init := by
    intro hmem
    simp only [List.mem_append] at hmem
    rcases hmem with ((hmem | hmem) | hmem) | hmem
    · simp [bootstrapCalls] at hmem
    · exact not_mem_shaderCalls_terminate env hmem
    · simp at hmem
    · exact hterm hmem
  have htrace : (main env).1.trace
      = (bootstrapCalls env ++ shaderCalls env ++ [.glViewport 0 0 800 600] ++ init)
        ++ [.glfwWindowShouldClose env.window true, .glfwTerminate] := by
    rw [ht, hinit]; simp
  refine ⟨?_, ?_, ⟨pre, f, post, hsplit, ?_, ?_, ?_⟩, ⟨_, htrace, hinit'⟩, ?_⟩
  · simp [hleft] at hret
    exact hret.symm
  · rw [ht]; simp [bootstrapCalls]
  · intro g hgm
    have := hpre g hgm
    simpa [Frame.closes] using this
  · simpa [Frame.closes] using hf
  · rw [ht]
    simp only [loopChecks_append, hchecks, loopChecks_shaderCalls]
    simp [loopChecks, bootstrapCalls]
  · rw [htrace, List.count_append, List.count_eq_zero.mpr hinit']
    simp

/-- A run for C6: `envQuit` returns 0 after its second frame. -/
theorem main_exits_only_when_closed_witness :
    (envQuit.window ≠ NULL ∧ envQuit.glad ≠ 0 ∧ (main envQuit).2 = some 0)
    ∧ ((0 : Int) = 0
    ∧ Call.glfwCreateWindow 800 600 "LearnOpenGL" NULL NULL envQuit.window ∈ (main envQuit).1.trace
    ∧ (∃ pre f post, envQuit.frames = pre ++ f :: post
        ∧ (∀ g ∈ pre, g.key ≠ GLFW_PRESS ∧ Event.windowClose ∉ g.events)
        ∧ (f.key = GLFW_PRESS ∨ Event.windowClose ∈ f.events)
        ∧ loopChecks (main envQuit).1.trace = List.replicate (pre.length + 1) false ++ [true])
    ∧ (∃ init, (main envQuit).1.trace
          = init ++ [.glfwWindowShouldClose envQuit.window true, .glfwTerminate]
        ∧ Call.glfwTerminate ∉ init)
    ∧ (main envQuit).1.trace.count .glfwTerminate = 1) :=
  ⟨⟨by decide, by decide, by decide⟩,
   main_exits_only_when_closed envQuit 0 (by decide) (by decide) (by decide)⟩

/-- C7: in a run that reaches the shader build, the trace continues after the
link call and its status query (and the log request, when the link failed)
with the release of the vertex shader, the release of the fragment shader,
`glViewport` and the first check of the render-loop condition; these two are
the only shader releases of the whole run, whatever the link status is, and
the program object is never released. -/
theorem main_releases_shaders_once (env : Env) (hw : env.window ≠ NULL) (hg : env.glad ≠ 0) :
    (main env).1.trace.filter Call.isDeleteShader
        = [.glDeleteShader env.vertexShader, .glDeleteShader env.fragmentShader]
    ∧ (∃ pre post, (main env).1.trace
          = pre ++ [.glLinkProgram env.shaderProgram,
                    .glGetProgramiv env.shaderProgram GL_LINK_STATUS env.linkStatus]
              ++ (if env.linkStatus = 0 then [.glGetProgramInfoLog env.shaderProgram 512]
                  else [])
              ++ [.glDeleteShader env.vertexShader,
                  .glDeleteShader env.fragmentShader,
                  .glViewport 0 0 800 600,
                  .glfwWindowShouldClose env.window false]
              ++ post
        ∧ loopChecks pre = [])
    ∧ (∀ c ∈ (main env).1.trace, ∀ program, c ≠ .glDeleteProgram program) := by
  have ht := main_trace env hw hg
  refine ⟨?_, ?_, ?_⟩
  · rw [ht]
    simp only [List.filter_append]
    rw [filter_loopCalls _ (by intro c hc; cases c <;> simp_all [Call.ofLoop, Call.isDeleteShader]),
      filter_terminate _ rfl]
    by_cases hv : env.vertexStatus = 0 <;> by_cases hf : env.fragmentStatus = 0 <;>
      by_cases hl : env.linkStatus = 0 <;>
      simp [bootstrapCalls, shaderCalls, Call.isDeleteShader, hv, hf, hl]
  · obtain ⟨rest, hr⟩ := loopCalls_head env.window env.frames false
    refine ⟨bootstrapCalls env ++
      ([.glCreateShader GL_VERTEX_SHADER env.vertexShader,
        .glShaderSource env.vertexShader 1 vertexShaderSource,
        .glCompileShader env.vertexShader,
        .glGetShaderiv env.vertexShader GL_COMPILE_STATUS env.vertexStatus]
        ++ (if env.vertexStatus = 0 then [.glGetShaderInfoLog env.vertexShader 512] else [])
        ++ [.glCreateShader GL_FRAGMENT_SHADER env.fragmentShader,
            .glShaderSource env.fragmentShader 1 fragmentShaderSource,
            .glCompileShader env.fragmentShader,
            .glGetShaderiv env.fragmentShader GL_COMPILE_STATUS env.fragmentStatus]
        ++ (if env.fragmentStatus = 0 then [.glGetShaderInfoLog env.fragmentShader 512] else [])
        ++ [.glCreateProgram env.shaderProgram,
            .glAttachShader env.shaderProgram env.vertexShader,
            .glAttachShader env.shaderProgram env.fragmentShader]),
      rest ++ (if loopLeft env.frames false then [.glfwTerminate] else []), ?_, ?_⟩
    · rw [ht, hr]
      simp [shaderCalls]
    · by_cases hv : env.vertexStatus = 0 <;> by_cases hf : env.fragmentStatus = 0 <;>
        simp [loopChecks, bootstrapCalls, hv, hf]
  · intro c hc program hcp
    subst hcp
    rw [ht] at hc
    simp only [List.mem_append] at hc
    rcases hc with (((hc | hc) | hc) | hc) | hc
    · simp [bootstrapCalls] at hc
    · revert hc
      by_cases hv : env.vertexStatus = 0 <;> by_cases hf : env.fragmentStatus = 0 <;>
        by_cases hl : env.linkStatus = 0 <;> simp [shaderCalls, hv, hf, hl]
    · simp at hc
    · have := mem_loopCalls hc
      simp [Call.ofLoop] at this
    · split at hc <;> simp at hc

/-- A run for C7: in `envQuit` the link fails. -/
theorem main_releases_shaders_once_witness :
    (envQuit.window ≠ NULL ∧ envQuit.glad ≠ 0)
    ∧ ((main envQuit).1.trace.filter Call.isDeleteShader
        = [.glDeleteShader envQuit.vertexShader, .glDeleteShader envQuit.fragmentShader]
    ∧ (∃ pre post, (main envQuit).1.trace
          = pre ++ [.glLinkProgram envQuit.shaderProgram,
                    .glGetProgramiv envQuit.shaderProgram GL_LINK_STATUS envQuit.linkStatus]
              ++ (if envQuit.linkStatus = 0 then [.glGetProgramInfoLog envQuit.shaderProgram 512]
                  else [])
              ++ [.glDeleteShader envQuit.vertexShader,
                  .glDeleteShader envQuit.fragmentShader,
                  .glViewport 0 0 800 600,
                  .glfwWindowShouldClose envQuit.window false]
              ++ post
        ∧ loopChecks pre = [])
    ∧ (∀ c ∈ (main envQuit).1.trace, ∀ program, c ≠ .glDeleteProgram program)) :=
  ⟨⟨by decide, by decide⟩, main_releases_shaders_once envQuit (by decide) (by decide)⟩

/-- C8: an iteration of the render loop issues, whatever the world and the
frame, the key query of `processInput` (followed by the close request if and
only if the key is reported pressed), `glClearColor (0.2, 0.3, 0.3, 1.0)`,
`glClear`, `glGenBuffers` for one name, `glBindBuffer` of that name to the
array buffer, `glBufferData` uploading the twelve floats (48 bytes) of
`vertices`, `glfwSwapBuffers` and `glfwPollEvents`, in this order; the only
calls after them are the `glViewport` calls of the resize callback, one per
resize event delivered by that `glfwPollEvents`.  The loop part of a run is `n`
such iterations, each behind a check of the loop condition that observed
false, and one last check; the run issues `glfwPollEvents` `n` times, generates
exactly `n` buffer names, frees none and issues no draw call. -/
theorem main_iteration_sequence (env : Env) (hw : env.window ≠ NULL) (hg : env.glad ≠ 0) :
    (∀ (f : Frame) (w : World), w.framebufferSizeCallback = true →
        (iteration env.window f w).trace
          = w.trace
            ++ ([.glfwGetKey env.window GLFW_KEY_E f.key]
              ++ (if f.key = GLFW_PRESS then [.glfwSetWindowShouldClose env.window true] else [])
              ++ [.glClearColor ⟨2, 1⟩ ⟨3, 1⟩ ⟨3, 1⟩ ⟨10, 1⟩,
                  .glClear GL_COLOR_BUFFER_BIT,
                  .glGenBuffers 1 f.vbo,
                  .glBindBuffer GL_ARRAY_BUFFER f.vbo,
                  .glBufferData GL_ARRAY_BUFFER 48 vertices GL_STATIC_DRAW,
                  .glfwSwapBuffers env.window,
                  .glfwPollEvents]
              ++ callbackCalls f.events))
    ∧ vertices.length = 4 * 3
    ∧ (∃ n, n ≤ env.frames.length
        ∧ (main env).1.trace
            = (beforeLoop env).trace
              ++ (env.frames.take n).flatMap
                  (fun f => .glfwWindowShouldClose env.window false
                              :: iterationCalls env.window f)
              ++ [.glfwWindowShouldClose env.window (main env).2.isSome]
              ++ (if (main env).2.isSome then [.glfwTerminate] else [])
        ∧ (main env).1.trace.count .glfwPollEvents = n
        ∧ buffersGenerated (main env).1.trace = n
        ∧ buffersFreed (main env).1.trace = 0)
    ∧ (∀ c ∈ (main env).1.trace,
        c.isDraw = false ∧ ∀ count buffer, c ≠ .glDeleteBuffers count buffer) := by
  have ht := main_trace env hw hg
  have hcode := main_code env hw hg
  have hsome : (main env).2.isSome = loopLeft env.frames false := by
    rw [hcode]; cases loopLeft env.frames false <;> rfl
  obtain ⟨c1, c2, c3⟩ := loopCalls_counts env.window env.frames false
  obtain ⟨s1, s2⟩ := shaderCalls_counts env
  have hkinds : ∀ c ∈ (main env).1.trace,
      c.isDraw = false ∧ ∀ count buffer, c ≠ .glDeleteBuffers count buffer := by
    intro c hc
    rcases mem_main_trace hc with h | h | h | h
    · obtain ⟨h1, h2, h3, _⟩ := bootstrapCalls_not_gl h
      cases c <;> simp_all [Call.isDraw, Call.isGl]
    · cases c <;> simp_all [Call.isDraw, Call.ofShaderBuild]
    · cases c <;> simp_all [Call.isDraw, Call.ofLoop]
    · subst h; simp [Call.isDraw]
  refine ⟨?_, rfl, ⟨loopIterations env.frames false, c3, ?_, ?_, ?_, ?_⟩, hkinds⟩
  · intro f w hcb
    exact (iteration_spec env.window f w hcb).1
  · rw [ht, (beforeLoop_spec env).1, loopCalls_eq_flatMap, hsome]
    simp
  · rw [ht]
    simp only [List.count_append, c1, s2]
    cases loopLeft env.frames false <;> simp [bootstrapCalls]
  · rw [ht]
    simp only [buffersGenerated_append, c2, s1]
    cases loopLeft env.frames false <;> simp [bootstrapCalls, buffersGenerated]
  · unfold buffersFreed
    apply List.sum_eq_zero
    intro x hx
    rw [List.mem_map] at hx
    obtain ⟨c, hc, rfl⟩ := hx
    have hno := (hkinds c hc).2
    cases c with
    | glDeleteBuffers count buffer => exact absurd rfl (hno count buffer)
    | _ => rfl

/-- A run for C8: `envQuit` executes two iterations. -/
theorem main_iteration_sequence_witness :
    (envQuit.window ≠ NULL ∧ envQuit.glad ≠ 0)
    ∧ ((∀ (f : Frame) (w : World), w.framebufferSizeCallback = true →
        (iteration envQuit.window f w).trace
          = w.trace
            ++ ([.glfwGetKey envQuit.window GLFW_KEY_E f.key]
              ++ (if f.key = GLFW_PRESS then [.glfwSetWindowShouldClose envQuit.window true] else [])
              ++ [.glClearColor ⟨2, 1⟩ ⟨3, 1⟩ ⟨3, 1⟩ ⟨10, 1⟩,
                  .glClear GL_COLOR_BUFFER_BIT,
                  .glGenBuffers 1 f.vbo,
                  .glBindBuffer GL_ARRAY_BUFFER f.vbo,
                  .glBufferData GL_ARRAY_BUFFER 48 vertices GL_STATIC_DRAW,
                  .glfwSwapBuffers envQuit.window,
                  .glfwPollEvents]
              ++ callbackCalls f.events))
    ∧ vertices.length = 4 * 3
    ∧ (∃ n, n ≤ envQuit.frames.length
        ∧ (main envQuit).1.trace
            = (beforeLoop envQuit).trace
              ++ (envQuit.frames.take n).flatMap
                  (fun f => .glfwWindowShouldClose envQuit.window false
                              :: iterationCalls envQuit.window f)
              ++ [.glfwWindowShouldClose envQuit.window (main envQuit).2.isSome]
              ++ (if (main envQuit).2.isSome then [.glfwTerminate] else [])
        ∧ (main envQuit).1.trace.count .glfwPollEvents = n
        ∧ buffersGenerated (main envQuit).1.trace = n
        ∧ buffersFreed (main envQuit).1.trace = 0)
    ∧ (∀ c ∈ (main envQuit).1.trace,
        c.isDraw = false ∧ ∀ count buffer, c ≠ .glDeleteBuffers count buffer)) :=
  ⟨⟨by decide, by decide⟩, main_iteration_sequence envQuit (by decide) (by decide)⟩

/-! ## Calls the program never issues, and the order of the bootstrap -/

/-- C9: in every run of `main` no prefix of the call trace holds a
`glUseProgram` call, on any handle.  The calls of the run that take a program
object are, when the shader build is reached, the two attach calls, the link
call, the link-status query and (if the link failed) the log request, all on
the handle `glCreateProgram` returned, and there are none when it is not
reached; `glCreateProgram` is called at most once. -/
theorem main_never_uses_program (env : Env) :
    (∀ pre, pre <+: (main env).1.trace →
      ∀ c ∈ pre, ∀ program, c ≠ .glUseProgram program)
    ∧ (main env).1.trace.filter Call.takesProgram
        = (if env.window ≠ NULL ∧ env.glad ≠ 0 then
            [.glAttachShader env.shaderProgram env.vertexShader,
             .glAttachShader env.shaderProgram env.fragmentShader,
             .glLinkProgram env.shaderProgram,
             .glGetProgramiv env.shaderProgram GL_LINK_STATUS env.linkStatus]
            ++ (if env.linkStatus = 0 then [.glGetProgramInfoLog env.shaderProgram 512]
                else [])
          else [])
    ∧ (∀ c ∈ (main env).1.trace, ∀ handle, c = .glCreateProgram handle →
        handle = env.shaderProgram) := by
  refine ⟨?_, ?_, ?_⟩
  · intro pre hpre c hc program hcp
    subst hcp
    rcases mem_main_trace (hpre.subset hc) with h | h | h | h
    · have := (bootstrapCalls_not_gl h).1
      simp [Call.isGl] at this
    · simp [Call.ofShaderBuild] at h
    · simp [Call.ofLoop] at h
    · cases h
  · by_cases hw : env.window = NULL
    · rw [main_trace_of_no_window env hw]
      simp [hw, Call.takesProgram]
    · by_cases hg : env.glad = 0
      · rw [main_trace_of_no_glad env hw hg]
        simp [hg, Call.takesProgram]
      · rw [main_trace env hw hg]
        simp only [List.filter_append]
        rw [filter_loopCalls _
            (by intro c hc; cases c <;> simp_all [Call.ofLoop, Call.takesProgram]),
          filter_terminate _ rfl]
        by_cases hv : env.vertexStatus = 0 <;> by_cases hf : env.fragmentStatus = 0 <;>
          by_cases hl : env.linkStatus = 0 <;>
          simp [bootstrapCalls, shaderCalls, Call.takesProgram, hw, hg, hv, hf, hl]
  · intro c hc handle hch
    subst hch
    by_cases hw : env.window = NULL
    · rw [main_trace_of_no_window env hw] at hc
      simp at hc
    · by_cases hg : env.glad = 0
      · rw [main_trace_of_no_glad env hw hg] at hc
        simp at hc
      · rw [main_trace env hw hg] at hc
        simp only [List.mem_append] at hc
        rcases hc with (((hc | hc) | hc) | hc) | hc
        · simp [bootstrapCalls] at hc
        · revert hc
          by_cases hv : env.vertexStatus = 0 <;> by_cases hf : env.fragmentStatus = 0 <;>
            by_cases hl : env.linkStatus = 0 <;> simp [shaderCalls, hv, hf, hl]
        · simp at hc
        · have := mem_loopCalls hc
          simp [Call.ofLoop] at this
        · split at hc <;> simp at hc

/-- C10: whenever a graphics call (`gl*`) occurs in the trace of a run of
`main`, be it a call of the shader build, the `glViewport` of `main`, a call of
the loop body or a `glViewport` issued by the resize callback, the window
pointer returned was not `NULL`, `gladLoadGLLoader` returned non-zero, and the
calls before it start with the whole bootstrap: `glfwInit`, the three hints,
the successful `glfwCreateWindow`, `glfwMakeContextCurrent` on that window,
the registration of the resize callback and the successful
`gladLoadGLLoader`; the callback is registered before the driver is bound, and
no `glfwPollEvents` (the only place events are delivered) precedes the
binding. -/
theorem main_gl_calls_after_binding (env : Env) (pre post : List Call) (c : Call)
    (hsplit : (main env).1.trace = pre ++ c :: post) (hgl : c.isGl = true) :
    env.window ≠ NULL ∧ env.glad ≠ 0
    ∧ ∃ rest, pre =
        [.glfwInit,
         .glfwWindowHint GLFW_CONTEXT_VERSION_MAJOR 3,
         .glfwWindowHint GLFW_CONTEXT_VERSION_MINOR 3,
         .glfwWindowHint GLFW_OPENGL_PROFILE GLFW_OPENGL_CORE_PROFILE,
         .glfwCreateWindow 800 600 "LearnOpenGL" NULL NULL env.window,
         .glfwMakeContextCurrent env.window,
         .glfwSetFramebufferSizeCallback env.window,
         .gladLoadGLLoader env.glad] ++ rest := by
  have hmem : c ∈ (main env).1.trace := by rw [hsplit]; simp
  have hw : env.window ≠ NULL := by
    intro hw
    rw [main_trace_of_no_window env hw] at hmem
    simp only [List.mem_cons, List.mem_singleton, List.not_mem_nil, or_false] at hmem
    rcases hmem with rfl | rfl | rfl | rfl | rfl | rfl <;> simp [Call.isGl] at hgl
  have hg : env.glad ≠ 0 := by
    intro hg
    rw [main_trace_of_no_glad env hw hg] at hmem
    simp only [List.mem_cons, List.mem_singleton, List.not_mem_nil, or_false] at hmem
    rcases hmem with rfl | rfl | rfl | rfl | rfl | rfl | rfl | rfl <;> simp [Call.isGl] at hgl
  refine ⟨hw, hg, ?_⟩
  have ht := main_trace env hw hg
  rw [hsplit] at ht
  simp only [List.append_assoc] at ht
  have hnot : c ∉ bootstrapCalls env := by
    intro hb
    have := (bootstrapCalls_not_gl hb).1
    rw [hgl] at this
    cases this
  exact prefix_of_split ht hnot

/-- A run for C10: the `glViewport` call the resize callback issues in the
first frame of `envQuit`, the 36th call of the run. -/
theorem main_gl_calls_after_binding_witness :
    ((main envQuit).1.trace
        = (main envQuit).1.trace.take 35
            ++ .glViewport 0 0 640 480 :: (main envQuit).1.trace.drop 36
      ∧ (Call.glViewport 0 0 640 480).isGl = true)
    ∧ (envQuit.window ≠ NULL ∧ envQuit.glad ≠ 0
    ∧ ∃ rest, ((main envQuit).1.trace.take 35) =
        [.glfwInit,
         .glfwWindowHint GLFW_CONTEXT_VERSION_MAJOR 3,
         .glfwWindowHint GLFW_CONTEXT_VERSION_MINOR 3,
         .glfwWindowHint GLFW_OPENGL_PROFILE GLFW_OPENGL_CORE_PROFILE,
         .glfwCreateWindow 800 600 "LearnOpenGL" NULL NULL envQuit.window,
         .glfwMakeContextCurrent envQuit.window,
         .glfwSetFramebufferSizeCallback envQuit.window,
         .gladLoadGLLoader envQuit.glad] ++ rest) :=
  ⟨⟨by decide, rfl⟩,
   main_gl_calls_after_binding envQuit ((main envQuit).1.trace.take 35)
    ((main envQuit).1.trace.drop 36) (.glViewport 0 0 640 480) (by decide) rfl⟩

end CreatingAWindow
